import Mathlib

/-!
Fl_Slider: value/pixel geometry and pointer interaction.

A shallow embedding of `src/Fl_Slider.cxx`.

Conventions of the embedding

* `double` and `float` values are IEEE 754 binary64 / binary32 values (`Fp`):
  a finite rational, an infinity or NaN.  Every arithmetic operation rounds
  its exact result to the format of the operation (round to nearest, ties to
  even, overflow to an infinity, gradual underflow).  The sign of a zero is
  not tracked; a zero divisor counts as `+0`, which is what the source
  divides by wherever the divisor can be zero (it is converted from `int`).
* `int` values are 32-bit two's complement: sums and differences wrap
  (`iadd`, `isub`).  C++ leaves signed overflow undefined; wrapping is what
  the usual build does.
* `int(x)` on a `double` truncates toward zero; for NaN, an infinity or a
  value outside the `int` range (undefined in C++) it yields `INT_MIN`, the
  result of the x86 conversion.  `a / 2` on `int` truncates toward zero.
* Drawing primitives (`draw_box`, `fl_line`, labels, focus ring) have no
  effect on the quantities studied here and are left out; `draw` returns the
  handle geometry it computes.
* Members inherited from `Fl_Valuator` / `Fl_Widget` / `Fl` are not part of
  `Fl_Slider.cxx`; each of them is introduced below with a doc comment that
  says so.
-/

namespace FlSlider

/-! ## Machine integers -/

/-- Reduction of an integer to the 32-bit two's complement range. -/
def wrap32 (x : ℤ) : ℤ := (x + 2147483648) % 4294967296 - 2147483648

/-- C++ `a + b` on `int`. -/
def iadd (a b : ℤ) : ℤ := wrap32 (a + b)

/-- C++ `a - b` on `int`. -/
def isub (a b : ℤ) : ℤ := wrap32 (a - b)

/-- C++ `a / 2` for an `int` `a`: truncation toward zero. -/
def half (a : ℤ) : ℤ := Int.tdiv a 2

/-- Membership in the range of `int`. -/
def is_int (x : ℤ) : Prop := -2147483648 ≤ x ∧ x < 2147483648

instance (x : ℤ) : Decidable (is_int x) := by
  unfold is_int
  exact inferInstance

/-! ## Floating point -/

/-- The power `2^e` for an integer exponent. -/
def pow2 (e : ℤ) : ℚ :=
  if 0 ≤ e then ((2 ^ e.toNat : ℕ) : ℚ) else 1 / ((2 ^ (-e).toNat : ℕ) : ℚ)

/-- Absolute value of a rational. -/
def qabs (q : ℚ) : ℚ := if q < 0 then -q else q

/-- Binary logarithm of a natural number, rounded down, by repeated halving. -/
def log2_fuel : ℕ → ℕ → ℕ
  | 0, _ => 0
  | fuel + 1, n => if n < 2 then 0 else log2_fuel fuel (n / 2) + 1

/-- Binary logarithm of a natural number, rounded down (`0` for `0`). -/
def nlog2 (n : ℕ) : ℕ := log2_fuel n n

/-- The exponent `e` with `2^e <= |q| < 2^(e+1)`, for `q` not zero. -/
def ilog2 (q : ℚ) : ℤ :=
  let e0 : ℤ := (nlog2 q.num.natAbs : ℤ) - (nlog2 q.den : ℤ)
  if pow2 e0 ≤ qabs q then e0 else e0 - 1

/-- Rounding of a rational to the nearest integer, ties to the even
neighbour (C `rint` in the default rounding mode). -/
def rint (x : ℚ) : ℤ :=
  let f : ℤ := ⌊x⌋
  let d : ℚ := x - f
  if d < 1/2 then f
  else if 1/2 < d then f + 1
  else if f % 2 = 0 then f else f + 1

/-- An IEEE 754 value: finite, infinite (`neg` for the negative one) or NaN. -/
inductive Fp where
  | fin (q : ℚ)
  | inf (neg : Bool)
  | nan
  deriving DecidableEq, Repr

/-- A binary floating-point format: precision in bits, least and greatest
exponent of a normal number. -/
structure Format where
  prec : ℕ
  emin : ℤ
  emax : ℤ

/-- The format of `double`. -/
def binary64 : Format := { prec := 53, emin := -1022, emax := 1023 }

/-- The format of `float`. -/
def binary32 : Format := { prec := 24, emin := -126, emax := 127 }

/-- Rounding of an exact result to a format: to nearest, ties to even, with
gradual underflow and overflow to an infinity. -/
def Format.round (f : Format) (q : ℚ) : Fp :=
  if q = 0 then Fp.fin 0
  else
    let e := max (ilog2 q) f.emin
    let ulp := pow2 (e - ((f.prec : ℤ) - 1))
    let r := (rint (q / ulp) : ℚ) * ulp
    if pow2 (f.emax + 1) ≤ qabs r then Fp.inf (decide (q < 0)) else Fp.fin r

/-- Sum in a format. -/
def Format.add (f : Format) : Fp → Fp → Fp
  | Fp.fin a, Fp.fin b => f.round (a + b)
  | Fp.fin _, Fp.inf s => Fp.inf s
  | Fp.inf s, Fp.fin _ => Fp.inf s
  | Fp.inf s, Fp.inf t => if s = t then Fp.inf s else Fp.nan
  | _, _ => Fp.nan

/-- Difference in a format. -/
def Format.sub (f : Format) : Fp → Fp → Fp
  | Fp.fin a, Fp.fin b => f.round (a - b)
  | Fp.fin _, Fp.inf s => Fp.inf (!s)
  | Fp.inf s, Fp.fin _ => Fp.inf s
  | Fp.inf s, Fp.inf t => if s = t then Fp.nan else Fp.inf s
  | _, _ => Fp.nan

/-- Product in a format. -/
def Format.mul (f : Format) : Fp → Fp → Fp
  | Fp.fin a, Fp.fin b => f.round (a * b)
  | Fp.fin a, Fp.inf s => if a = 0 then Fp.nan else Fp.inf (xor (decide (a < 0)) s)
  | Fp.inf s, Fp.fin b => if b = 0 then Fp.nan else Fp.inf (xor s (decide (b < 0)))
  | Fp.inf s, Fp.inf t => Fp.inf (xor s t)
  | _, _ => Fp.nan

/-- Quotient in a format; a zero divisor counts as `+0`. -/
def Format.div (f : Format) : Fp → Fp → Fp
  | Fp.fin a, Fp.fin b =>
    if b = 0 then (if a = 0 then Fp.nan else Fp.inf (decide (a < 0))) else f.round (a / b)
  | Fp.fin _, Fp.inf _ => Fp.fin 0
  | Fp.inf s, Fp.fin b => Fp.inf (xor s (decide (b < 0)))
  | _, _ => Fp.nan

/-- The comparison `a < b`; false when an operand is NaN. -/
def flt : Fp → Fp → Bool
  | Fp.fin a, Fp.fin b => decide (a < b)
  | Fp.fin _, Fp.inf s => !s
  | Fp.inf s, Fp.fin _ => s
  | Fp.inf s, Fp.inf t => s && !t
  | _, _ => false

/-- The comparison `a == b`; false when an operand is NaN. -/
def feq : Fp → Fp → Bool
  | Fp.fin a, Fp.fin b => decide (a = b)
  | Fp.inf s, Fp.inf t => decide (s = t)
  | _, _ => false

/-- The comparison `a <= b`; false when an operand is NaN. -/
def fle (a b : Fp) : Bool := flt a b || feq a b

/-- Sum of two `double`s. -/
def dadd (a b : Fp) : Fp := binary64.add a b

/-- Difference of two `double`s. -/
def dsub (a b : Fp) : Fp := binary64.sub a b

/-- Product of two `double`s. -/
def dmul (a b : Fp) : Fp := binary64.mul a b

/-- Quotient of two `double`s. -/
def ddiv (a b : Fp) : Fp := binary64.div a b

/-- Conversion `int` to `double` (exact). -/
def double_of_int (n : ℤ) : Fp := Fp.fin (n : ℚ)

/-- Conversion `int` to `float` (rounds beyond 24 bits). -/
def float_of_int (n : ℤ) : Fp := binary32.round (n : ℚ)

/-- C++ `float(v)` for a `double` `v`. -/
def float_of_double : Fp → Fp
  | Fp.fin q => binary32.round q
  | x => x

/-- A `double` literal: the `double` nearest to the decimal written. -/
def dbl (q : ℚ) : Fp := binary64.round q

/-- C++ `int(x)` for a `double` `x`: truncation toward zero; `INT_MIN` where
the conversion is undefined. -/
def int_of_double : Fp → ℤ
  | Fp.fin q =>
    if -2147483648 ≤ Int.tdiv q.num (q.den : ℤ) ∧ Int.tdiv q.num (q.den : ℤ) < 2147483648 then
      Int.tdiv q.num (q.den : ℤ)
    else -2147483648
  | _ => -2147483648

/-- C `rint` on a `double`. -/
def drint : Fp → Fp
  | Fp.fin q => Fp.fin (rint q : ℚ)
  | x => x

/-! ## Data model -/

/-- Modelled from the spec: the slider `type`, "orientation
(horizontal/vertical) × style (normal/fill/nice) encoded as a small
enumeration"; the constants are declared in headers outside `src/`. -/
inductive SliderType where
  | FL_VERT_SLIDER
  | FL_HOR_SLIDER
  | FL_VERT_FILL_SLIDER
  | FL_HOR_FILL_SLIDER
  | FL_VERT_NICE_SLIDER
  | FL_HOR_NICE_SLIDER
  deriving DecidableEq, Repr

open SliderType

/-- Modelled from the spec: the event codes consumed by `handle`. -/
inductive Event where
  | FL_PUSH
  | FL_DRAG
  | FL_RELEASE
  | FL_KEYBOARD
  | FL_FOCUS
  | FL_UNFOCUS
  | FL_ENTER
  | FL_LEAVE
  | FL_OTHER
  deriving DecidableEq, Repr

open Event

/-- Modelled from the spec: the key codes `Fl::event_key()` is compared with. -/
inductive Key where
  | FL_Up
  | FL_Down
  | FL_Left
  | FL_Right
  | FL_OtherKey
  deriving DecidableEq, Repr

open Key

/-- The calls `handle` makes into the valuator, in the order issued. -/
inductive Callback where
  | push
  | drag (v : Fp)
  | release
  deriving DecidableEq, Repr

/-- The slider together with the valuator range it composes (`double`s), the
`float` slider size, the function-static `offcenter` of `handle`, and the log
of valuator calls. -/
structure Fl_Slider where
  type_ : SliderType
  minimum : Fp
  maximum : Fp
  value : Fp
  step : Fp
  slider_size_ : Fp
  damage_expose : Bool
  damage_all : Bool
  offcenter : ℤ
  calls : List Callback
  deriving DecidableEq, Repr

/-- What `handle` reads from the toolkit: pointer position, key, the
visible-focus switch, and whether the widget tracker reports the widget
deleted after the push / drag notification. -/
structure Env where
  event_x : ℤ
  event_y : ℤ
  event_key : Key
  visible_focus : Bool
  deleted_after_push : Bool
  deleted_after_drag : Bool
  deriving DecidableEq, Repr

/-! ## Inherited members (not in `Fl_Slider.cxx`) -/

/-- Modelled from the spec: `horizontal()`, "the orientation query derived
from type". -/
def Fl_Slider.horizontal (s : Fl_Slider) : Bool :=
  match s.type_ with
  | FL_HOR_SLIDER | FL_HOR_FILL_SLIDER | FL_HOR_NICE_SLIDER => true
  | _ => false

/-- Modelled from the spec: `Fl_Valuator::round`, "round to nearest
integer-equivalent step"; with no step set the value is kept. -/
def Fl_Slider.round (s : Fl_Slider) (v : Fp) : Fp :=
  if feq s.step (Fp.fin 0) then v else dmul (drint (ddiv v s.step)) s.step

/-- Modelled from the spec: `Fl_Valuator::clamp`, "value always falls within
[min,max] after clamping (min may exceed max to invert direction)". -/
def Fl_Slider.clamp (s : Fl_Slider) (v : Fp) : Fp :=
  if fle s.minimum s.maximum then
    (if flt v s.minimum then s.minimum else if flt s.maximum v then s.maximum else v)
  else
    (if flt s.minimum v then s.minimum else if flt v s.maximum then s.maximum else v)

/-- Modelled from the spec: `Fl_Valuator::increment`, which
"increments/decrements the value by one step". -/
def Fl_Slider.increment (s : Fl_Slider) (v : Fp) (n : ℤ) : Fp :=
  dadd v (dmul (double_of_int n) s.step)

/-- Modelled from the spec: `Fl_Valuator::step(a, b)`, the step is `a/b`. -/
def Fl_Slider.set_step (s : Fl_Slider) (a : Fp) (b : ℤ) : Fl_Slider :=
  { s with step := ddiv a (double_of_int b) }

/-- Modelled from the spec: `Fl_Valuator::bounds(a, b)`, which sets the
minimum and maximum of the range model. -/
def Fl_Slider.valuator_bounds (s : Fl_Slider) (a b : Fp) : Fl_Slider :=
  { s with minimum := a, maximum := b }

/-- Modelled from the spec: `Fl_Valuator::value(v)`, "sets the current value
to position. Returns whether the value changed". -/
def Fl_Slider.set_value (s : Fl_Slider) (v : Fp) : ℤ × Fl_Slider :=
  if feq v s.value then (0, s) else (1, { s with value := v })

/-- Modelled from the spec: `damage(FL_DAMAGE_EXPOSE)`, "marks a
partial-redraw flag". -/
def Fl_Slider.damage_EXPOSE (s : Fl_Slider) : Fl_Slider :=
  { s with damage_expose := true }

/-- Modelled from the spec: `redraw()`, which asks for a full redraw. -/
def Fl_Slider.redraw (s : Fl_Slider) : Fl_Slider :=
  { s with damage_all := true }

/-- Modelled from the spec: `handle_push()`, notify "interaction started". -/
def Fl_Slider.handle_push (s : Fl_Slider) : Fl_Slider :=
  { s with calls := s.calls ++ [Callback.push] }

/-- Modelled from the spec: `handle_drag(v)`, "apply the resulting value
through the drag callback". -/
def Fl_Slider.handle_drag (s : Fl_Slider) (v : Fp) : Fl_Slider :=
  { s with value := v, calls := s.calls ++ [Callback.drag v] }

/-- Modelled from the spec: `handle_release()`, notify "interaction ended". -/
def Fl_Slider.handle_release (s : Fl_Slider) : Fl_Slider :=
  { s with calls := s.calls ++ [Callback.release] }

/-- Modelled from the spec: `Fl::event_inside(X, Y, W, H)`, "press point lies
within bounds". -/
def event_inside (env : Env) (X Y W H : ℤ) : Bool :=
  decide (0 ≤ isub env.event_x X) && decide (isub env.event_x X < W) &&
  decide (0 ≤ isub env.event_y Y) && decide (isub env.event_y Y < H)

/-! ## `Fl_Slider.cxx` -/

/-- Source `Fl_Slider::slider_size(double v)`. -/
def Fl_Slider.slider_size (s : Fl_Slider) (v : Fp) : Fl_Slider :=
  let v := if flt v (Fp.fin 0) then Fp.fin 0 else v
  let v := if flt (Fp.fin 1) v then Fp.fin 1 else v
  if !feq s.slider_size_ (float_of_double v) then
    { s with slider_size_ := float_of_double v }.damage_EXPOSE
  else s

/-- Source `Fl_Slider::bounds(double a, double b)`. -/
def Fl_Slider.bounds (s : Fl_Slider) (a b : Fp) : Fl_Slider :=
  if !feq s.minimum a || !feq s.maximum b then
    (s.valuator_bounds a b).damage_EXPOSE
  else s

/-- Source `Fl_Slider::scrollvalue(int pos, int size, int first, int total)`. -/
def Fl_Slider.scrollvalue (s : Fl_Slider) (pos size first total : ℤ) : ℤ × Fl_Slider :=
  let s := s.set_step (Fp.fin 1) 1
  let total := if iadd first total < iadd pos size then isub (iadd pos size) first else total
  let s := s.slider_size
    (if total ≤ size then Fp.fin 1 else ddiv (double_of_int size) (double_of_int total))
  let s := s.bounds (double_of_int first) (double_of_int (iadd (isub total size) first))
  s.set_value (double_of_int pos)

/-- Source `val_linear01_from_value(value, min, max)`. -/
def val_linear01_from_value (value min max : Fp) : Fp :=
  if feq min max then Fp.fin (1/2)
  else
    let val_linear01 := ddiv (dsub value min) (dsub max min)
    if flt (Fp.fin 1) val_linear01 then Fp.fin 1
    else if flt val_linear01 (Fp.fin 0) then Fp.fin 0
    else val_linear01

/-- True for `FL_HOR_FILL_SLIDER` and `FL_VERT_FILL_SLIDER`. -/
def Fl_Slider.is_fill (s : Fl_Slider) : Bool :=
  decide (s.type_ = FL_HOR_FILL_SLIDER) || decide (s.type_ = FL_VERT_FILL_SLIDER)

/-- True for `FL_VERT_NICE_SLIDER` and `FL_HOR_NICE_SLIDER`. -/
def Fl_Slider.is_nice (s : Fl_Slider) : Bool :=
  decide (s.type_ = FL_VERT_NICE_SLIDER) || decide (s.type_ = FL_HOR_NICE_SLIDER)

/-- The handle rectangle computed by `draw(X,Y,W,H)`. -/
structure HandleGeometry where
  handle_start_edge_px : ℤ
  handle_size_px : ℤ
  xsl : ℤ
  ysl : ℤ
  wsl : ℤ
  hsl : ℤ
  deriving DecidableEq, Repr

/-- Source `Fl_Slider::draw(int X, int Y, int W, int H)`, lines 127-154: the
geometry of the handle.  The rest of the function only issues drawing calls
(and reuses two locals as scratch for the gripper lines).  The product
`slider_size_*length_px` is a `float` product, the other products and the
sums with `.5` are `double` operations. -/
def Fl_Slider.draw (s : Fl_Slider) (X Y W H : ℤ) : HandleGeometry :=
  let val_linear01 := val_linear01_from_value s.value s.minimum s.maximum
  let length_px : ℤ := if s.horizontal then W else H
  let g : ℤ × ℤ :=
    if s.is_fill then
      let handle_size_px :=
        int_of_double (dadd (dmul val_linear01 (double_of_int length_px)) (Fp.fin (1/2)))
      if flt s.maximum s.minimum then
        let handle_size_px := isub length_px handle_size_px
        (isub length_px handle_size_px, handle_size_px)
      else (0, handle_size_px)
    else
      let handle_size_px :=
        int_of_double
          (dadd (binary32.mul s.slider_size_ (float_of_int length_px)) (Fp.fin (1/2)))
      let handle_size_min_px := iadd (half (if s.horizontal then H else W)) 1
      let handle_size_min_px :=
        if s.is_nice then iadd handle_size_min_px 4 else handle_size_min_px
      let handle_size_px :=
        if handle_size_px < handle_size_min_px then handle_size_min_px else handle_size_px
      (int_of_double
          (dadd (dmul val_linear01 (double_of_int (isub length_px handle_size_px)))
            (Fp.fin (1/2))),
        handle_size_px)
  if s.horizontal then
    { handle_start_edge_px := g.1, handle_size_px := g.2,
      xsl := iadd X g.1, wsl := g.2, ysl := Y, hsl := H }
  else
    { handle_start_edge_px := g.1, handle_size_px := g.2,
      ysl := iadd Y g.1, hsl := g.2, xsl := X, wsl := W }

/-! ### `handle(event, X, Y, W, H)` -/

/-- Variables of the `while (tryAgain)` loop of `handle`, lines 270-290. -/
structure LoopState where
  event : Event
  handle_start_edge_px : ℤ
  offcenter : ℤ
  v : Fp
  tryAgain : Bool
  deriving DecidableEq, Repr

/-- Source line 283, `round(edge*(maximum()-minimum())/(length_px-handle_size_px)
+ minimum())`, in `double` arithmetic: with a zero divisor the quotient is an
infinity, or NaN when the numerator is zero too. -/
def Fl_Slider.pixel_to_value (s : Fl_Slider) (handle_start_edge_px length_px handle_size_px : ℤ) :
    Fp :=
  s.round (dadd
    (ddiv (dmul (double_of_int handle_start_edge_px) (dsub s.maximum s.minimum))
      (double_of_int (isub length_px handle_size_px)))
    s.minimum)

/-- Source lines 276-282: the handle edge is brought back onto the track and
the offset re-derived at the boundary; the result is the pair
`(handle_start_edge_px, offcenter)`. -/
def clamp_edge (mx length_px handle_size_px handle_start_edge_px offcenter : ℤ) : ℤ × ℤ :=
  if handle_start_edge_px < 0 then
    (0, if mx < 0 then 0 else mx)
  else if isub length_px handle_size_px < handle_start_edge_px then
    (isub length_px handle_size_px,
      if handle_size_px < isub mx (isub length_px handle_size_px) then handle_size_px
      else isub mx (isub length_px handle_size_px))
  else (handle_start_edge_px, offcenter)

/-- One pass through the body of the `while (tryAgain)` loop, lines 275-289. -/
def Fl_Slider.loop_body (s : Fl_Slider) (mx length_px handle_size_px : ℤ) (st : LoopState) :
    LoopState :=
  let c := clamp_edge mx length_px handle_size_px st.handle_start_edge_px st.offcenter
  let v := s.pixel_to_value c.1 length_px handle_size_px
  if st.event = FL_PUSH ∧ feq v s.value = true then
    { event := FL_DRAG, handle_start_edge_px := c.1, offcenter := half handle_size_px,
      v := v, tryAgain := true }
  else
    { event := st.event, handle_start_edge_px := c.1, offcenter := c.2,
      v := v, tryAgain := false }

/-- The loop `while (tryAgain) body`, run for at most `fuel` passes. -/
def while_tryAgain (body : LoopState → LoopState) : Nat → LoopState → LoopState
  | 0, st => st
  | fuel + 1, st => if st.tryAgain then while_tryAgain body fuel (body st) else st

/-- Outcome of lines 237-268 of `handle`: either the handler has returned, or
control reaches line 270 with these values of the locals. -/
inductive Prologue where
  | ret (code : ℤ) (s : Fl_Slider)
  | go (s : Fl_Slider) (length_px mx handle_size_px : ℤ)
  deriving DecidableEq, Repr

/-- Source lines 237-268 of `handle`, for `event` equal to `FL_PUSH` (after
the fall through) or `FL_DRAG`. -/
def Fl_Slider.drag_prologue (s : Fl_Slider) (env : Env) (event : Event) (X Y W H : ℤ) :
    Prologue :=
  let val_linear01 := val_linear01_from_value s.value s.minimum s.maximum
  let length_px : ℤ := if s.horizontal then W else H
  let mx : ℤ := if s.horizontal then isub env.event_x X else isub env.event_y Y
  if s.is_fill then
    let handle_size_px : ℤ := 0
    if event = FL_PUSH then
      let handle_start_edge_px :=
        int_of_double (dadd (dmul val_linear01 (double_of_int length_px)) (Fp.fin (1/2)))
      let offcenter := isub mx handle_start_edge_px
      if offcenter < -10 ∨ 10 < offcenter then
        Prologue.go { s with offcenter := 0 } length_px mx handle_size_px
      else Prologue.ret 1 { s with offcenter := offcenter }
    else Prologue.go s length_px mx handle_size_px
  else
    let handle_size_px :=
      int_of_double
        (dadd (binary32.mul s.slider_size_ (float_of_int length_px)) (Fp.fin (1/2)))
    if length_px ≤ handle_size_px then Prologue.ret 0 s
    else
      let T := iadd (half (if s.horizontal then H else W)) 1
      let T := if s.is_nice then iadd T 4 else T
      let handle_size_px := if handle_size_px < T then T else handle_size_px
      if event = FL_PUSH then
        let handle_start_edge_px :=
          int_of_double
            (dadd (dmul val_linear01 (double_of_int (isub length_px handle_size_px)))
              (Fp.fin (1/2)))
        let offcenter := isub mx handle_start_edge_px
        if offcenter < 0 then
          Prologue.go { s with offcenter := 0 } length_px mx handle_size_px
        else if handle_size_px < offcenter then
          Prologue.go { s with offcenter := handle_size_px } length_px mx handle_size_px
        else Prologue.ret 1 { s with offcenter := offcenter }
      else Prologue.go s length_px mx handle_size_px

/-- Loop state on entry to the `while (tryAgain)` loop, lines 270-272. -/
def loop_entry (s : Fl_Slider) (event : Event) (mx : ℤ) : LoopState :=
  { event := event, handle_start_edge_px := isub mx s.offcenter, offcenter := s.offcenter,
    v := Fp.fin 0, tryAgain := true }

/-- State on exit of the `while (tryAgain)` loop; two passes always suffice
(`while_tryAgain_exits`, `while_tryAgain_fuel`). -/
def Fl_Slider.run_loop (s : Fl_Slider) (event : Event) (length_px mx handle_size_px : ℤ) :
    LoopState :=
  while_tryAgain (s.loop_body mx length_px handle_size_px) 2 (loop_entry s event mx)

/-- Source lines 235-292 of `handle`: the `FL_DRAG` case, also entered by the
fall through from `FL_PUSH`. -/
def Fl_Slider.drag_case (s : Fl_Slider) (env : Env) (event : Event) (X Y W H : ℤ) :
    ℤ × Fl_Slider :=
  match s.drag_prologue env event X Y W H with
  | Prologue.ret code s => (code, s)
  | Prologue.go s length_px mx handle_size_px =>
    let st := s.run_loop event length_px mx handle_size_px
    (1, { s with offcenter := st.offcenter }.handle_drag (s.clamp st.v))

/-- Source lines 301-306 (repeated for each arrow key): push, drag by `n`
steps, release, giving up as soon as the widget is reported deleted. -/
def Fl_Slider.key_move (s : Fl_Slider) (env : Env) (n : ℤ) : ℤ × Fl_Slider :=
  let s := s.handle_push
  if env.deleted_after_push then (1, s)
  else
    let s := s.handle_drag (s.clamp (s.increment s.value n))
    if env.deleted_after_drag then (1, s)
    else (1, s.handle_release)

/-- Source `Fl_Slider::handle(int event, int X, int Y, int W, int H)`. -/
def Fl_Slider.handle (s : Fl_Slider) (env : Env) (event : Event) (X Y W H : ℤ) :
    ℤ × Fl_Slider :=
  match event with
  | FL_PUSH =>
    if !event_inside env X Y W H then (0, s)
    else
      let s := s.handle_push
      if env.deleted_after_push then (1, s)
      else s.drag_case env FL_PUSH X Y W H
  | FL_DRAG => s.drag_case env FL_DRAG X Y W H
  | FL_RELEASE => (1, s.handle_release)
  | FL_KEYBOARD =>
    match env.event_key with
    | FL_Up => if s.horizontal then (0, s) else s.key_move env (-1)
    | FL_Down => if s.horizontal then (0, s) else s.key_move env 1
    | FL_Left => if !s.horizontal then (0, s) else s.key_move env (-1)
    | FL_Right => if !s.horizontal then (0, s) else s.key_move env 1
    | FL_OtherKey => (0, s)
  | FL_FOCUS | FL_UNFOCUS =>
    if env.visible_focus then (1, s.redraw) else (0, s)
  | FL_ENTER | FL_LEAVE => (1, s)
  | FL_OTHER => (0, s)

/-! ## Sample inputs -/

/-- A pointer/key environment with the pointer at `(x, y)` and no deletion. -/
def env_at (x y : ℤ) (k : Key) : Env :=
  { event_x := x, event_y := y, event_key := k, visible_focus := false,
    deleted_after_push := false, deleted_after_drag := false }

/-- A slider of type `t` whose range, value and step are the `double`s nearest
to `lo`, `hi`, `v`, `stp` and whose slider size is the `float` obtained from
the `double` nearest to `sz`. -/
def sample (t : SliderType) (lo hi v stp sz : ℚ) : Fl_Slider :=
  { type_ := t, minimum := dbl lo, maximum := dbl hi, value := dbl v, step := dbl stp,
    slider_size_ := float_of_double (dbl sz), damage_expose := false, damage_all := false,
    offcenter := 0, calls := [] }

/-- The slider `s` once a press has been notified and `offcenter` set to
`off`. -/
def after_push (s : Fl_Slider) (off : ℤ) : Fl_Slider :=
  { s with offcenter := off, calls := s.calls ++ [Callback.push] }

/-! ## Quantities named in the specification

Each definition below gives a name to a quantity the specification talks
about; the theorems relate them to what the functions above compute. -/

/-- The `total` used by `scrollvalue` after its first test: expanded to
`pos+size-first` when the window would run past `first+total` (`int`
arithmetic). -/
def expanded_total (pos size first total : ℤ) : ℤ :=
  if iadd first total < iadd pos size then isub (iadd pos size) first else total

/-- The spec's `clamp(v, 0, 1)`: 0 when `v < 0`, 1 when `v > 1`, `v`
otherwise (so NaN is left as it is). -/
def clamp01 (v : Fp) : Fp :=
  if flt v (Fp.fin 0) then Fp.fin 0 else if flt (Fp.fin 1) v then Fp.fin 1 else v

/-- A number in `[0,1]`: `0 <= x` and `x <= 1` both hold (neither does for
NaN). -/
def in_unit (x : Fp) : Prop := fle (Fp.fin 0) x = true ∧ fle x (Fp.fin 1) = true

instance (x : Fp) : Decidable (in_unit x) := by
  unfold in_unit
  exact inferInstance

/-- Track length seen by `draw` and `handle`: `horizontal() ? W : H`. -/
def Fl_Slider.track_length (s : Fl_Slider) (W H : ℤ) : ℤ := if s.horizontal then W else H

/-- Cross dimension of the track: `horizontal() ? H : W`. -/
def Fl_Slider.cross_dimension (s : Fl_Slider) (W H : ℤ) : ℤ := if s.horizontal then H else W

/-- Normalized value of the slider, `val_linear01_from_value(value(), minimum(),
maximum())`. -/
def Fl_Slider.val_linear01 (s : Fl_Slider) : Fp :=
  val_linear01_from_value s.value s.minimum s.maximum

/-- Minimum handle length `T`: `cross/2 + 1`, plus 4 for the nice types. -/
def Fl_Slider.handle_size_min (s : Fl_Slider) (W H : ℤ) : ℤ :=
  if s.is_nice then iadd (iadd (half (s.cross_dimension W H)) 1) 4
  else iadd (half (s.cross_dimension W H)) 1

/-- The C++ expression `int(n*L + 0.5)` for a `double` `n` and an `int` `L`:
`double` product, `double` sum, truncation. -/
def px_of_double (n : Fp) (L : ℤ) : ℤ :=
  int_of_double (dadd (dmul n (double_of_int L)) (Fp.fin (1/2)))

/-- The C++ expression `int(s*L + 0.5)` for a `float` `s` and an `int` `L`:
`float` product, `double` sum, truncation. -/
def px_of_float (sz : Fp) (L : ℤ) : ℤ :=
  int_of_double (dadd (binary32.mul sz (float_of_int L)) (Fp.fin (1/2)))

/-- Filled length of a fill slider before orientation of the range is taken
into account: `int(n*L + 0.5)`. -/
def Fl_Slider.fill_px (s : Fl_Slider) (W H : ℤ) : ℤ :=
  px_of_double s.val_linear01 (s.track_length W H)

/-- An arrow key on the axis perpendicular to the slider: Up/Down on a
horizontal slider, Left/Right on a vertical one. -/
def Fl_Slider.perpendicular (s : Fl_Slider) (k : Key) : Bool :=
  match k with
  | FL_Up | FL_Down => s.horizontal
  | FL_Left | FL_Right => !s.horizontal
  | FL_OtherKey => false

/-- Direction of an arrow key: `-1` for Up/Left, `+1` for Down/Right. -/
def Key.direction (k : Key) : ℤ :=
  match k with
  | FL_Up | FL_Left => -1
  | _ => 1

/-- Pointer position along the track: `event_x()-X` or `event_y()-Y`. -/
def Fl_Slider.pointer_px (s : Fl_Slider) (env : Env) (X Y : ℤ) : ℤ :=
  if s.horizontal then isub env.event_x X else isub env.event_y Y

/-- Unfloored handle length `int(slider_size*L + 0.5)`. -/
def Fl_Slider.unfloored_handle_px (s : Fl_Slider) (W H : ℤ) : ℤ :=
  px_of_float s.slider_size_ (s.track_length W H)

/-- Handle length of a normal or nice slider: the unfloored length raised to
the minimum size. -/
def Fl_Slider.handle_px (s : Fl_Slider) (W H : ℤ) : ℤ :=
  max (s.unfloored_handle_px W H) (s.handle_size_min W H)

/-- Current leading edge of the handle as `handle` computes it on a press:
`int(n*L + 0.5)` for a fill slider, `int(n*(L - handle_length) + 0.5)`
otherwise. -/
def Fl_Slider.handle_edge_px (s : Fl_Slider) (W H : ℤ) : ℤ :=
  if s.is_fill then s.fill_px W H
  else px_of_double s.val_linear01 (isub (s.track_length W H) (s.handle_px W H))

/-- Offset of the pointer from the handle's current leading edge. -/
def Fl_Slider.press_offset (s : Fl_Slider) (env : Env) (X Y W H : ℤ) : ℤ :=
  isub (s.pointer_px env X Y) (s.handle_edge_px W H)

/-- The pointer is on the handle: offset within `[-10, 10]` for a fill
slider; for a normal or nice slider the unfloored handle is shorter than the
track and the offset lies in `[0, handle_length]`. -/
def Fl_Slider.pointer_on_handle (s : Fl_Slider) (env : Env) (X Y W H : ℤ) : Prop :=
  if s.is_fill then
    -10 ≤ s.press_offset env X Y W H ∧ s.press_offset env X Y W H ≤ 10
  else
    s.unfloored_handle_px W H < s.track_length W H ∧
    0 ≤ s.press_offset env X Y W H ∧ s.press_offset env X Y W H ≤ s.handle_px W H

instance (s : Fl_Slider) (env : Env) (X Y W H : ℤ) :
    Decidable (s.pointer_on_handle env X Y W H) := by
  unfold Fl_Slider.pointer_on_handle
  exact inferInstance

/-- Divisor `length_px - handle_size_px` of the pixel-to-value conversion when
the prologue reaches it. -/
def Prologue.divisor : Prologue → Option ℤ
  | Prologue.ret _ _ => none
  | Prologue.go _ length_px _ handle_size_px => some (isub length_px handle_size_px)

/-- Every finite `double` is an integer multiple of the smallest subnormal
`2^-1074`. -/
def on_grid (q : ℚ) : Prop := (q / pow2 (-1074)).den = 1

instance (q : ℚ) : Decidable (on_grid q) := by
  unfold on_grid
  exact inferInstance

/-! ## Basic facts -/

theorem wrap32_of_is_int {x : ℤ} (h : is_int x) : wrap32 x = x := by
  unfold is_int at h
  unfold wrap32
  omega

theorem wrap32_is_int (x : ℤ) : is_int (wrap32 x) := by
  unfold is_int wrap32
  omega

theorem iadd_isub_cancel (a b : ℤ) : iadd (isub a b) b = wrap32 a := by
  unfold iadd isub wrap32
  omega

theorem half_ge_ediv (a : ℤ) : a / 2 ≤ half a := by
  unfold half
  rcases le_or_lt 0 a with h | h
  · rw [Int.tdiv_eq_ediv h (by norm_num)]
  · have h1 : a.tdiv 2 = -((-a) / 2) := by
      rw [← Int.tdiv_eq_ediv (by omega) (by norm_num), Int.neg_tdiv, neg_neg]
    rw [h1]
    omega

theorem half_le_of_le (a b : ℤ) (hb : 0 ≤ b) (h : a ≤ 2 * b + 1) : half a ≤ b := by
  unfold half
  rcases le_or_lt 0 a with h0 | h0
  · rw [Int.tdiv_eq_ediv h0 (by norm_num)]
    omega
  · have h1 : a.tdiv 2 = -((-a) / 2) := by
      rw [← Int.tdiv_eq_ediv (by omega) (by norm_num), Int.neg_tdiv, neg_neg]
    rw [h1]
    omega

theorem half_bounds {a : ℤ} (h : is_int a) : -1073741824 ≤ half a ∧ half a ≤ 1073741823 := by
  unfold is_int at h
  have h1 := half_ge_ediv a
  have h2 := half_le_of_le a 1073741823 (by norm_num) (by omega)
  exact ⟨by omega, h2⟩

/-- The minimum handle size does not overflow: for `int` dimensions it is
`cross/2 + 1`, plus 4 for the nice types. -/
theorem handle_size_min_eq (s : Fl_Slider) (W H : ℤ) (hW : is_int W) (hH : is_int H) :
    s.handle_size_min W H =
      half (s.cross_dimension W H) + 1 + (if s.is_nice then 4 else 0) := by
  have hC : is_int (s.cross_dimension W H) := by
    unfold Fl_Slider.cross_dimension
    split_ifs <;> assumption
  obtain ⟨b0, b1⟩ := half_bounds hC
  unfold Fl_Slider.handle_size_min iadd wrap32
  split_ifs <;> omega

theorem feq_eq {a b : Fp} (h : feq a b = true) : a = b := by
  cases a <;> cases b <;> simp_all [feq]

theorem feq_of_eq {a : Fp} (h : a ≠ Fp.nan) : feq a a = true := by
  cases a <;> simp_all [feq]

theorem feq_false_iff_ne {a b : Fp} (hb : b ≠ Fp.nan) : feq a b = false ↔ a ≠ b := by
  constructor
  · intro h e
    subst e
    rw [feq_of_eq hb] at h
    exact Bool.noConfusion h
  · intro h
    by_contra hc
    exact h (feq_eq (by simpa using hc))

theorem round_ne_nan (f : Format) (q : ℚ) : f.round q ≠ Fp.nan := by
  unfold Format.round
  simp only []
  split_ifs <;> simp

theorem float_of_double_ne_nan {v : Fp} (h : v ≠ Fp.nan) : float_of_double v ≠ Fp.nan := by
  cases v with
  | fin q => exact round_ne_nan _ _
  | inf s => simp [float_of_double]
  | nan => exact absurd rfl h

theorem clamp01_ne_nan {v : Fp} (h : v ≠ Fp.nan) : clamp01 v ≠ Fp.nan := by
  unfold clamp01
  split_ifs <;> simp [h]

theorem clamp01_in_unit {v : Fp} (h : v ≠ Fp.nan) : in_unit (clamp01 v) := by
  unfold clamp01 in_unit
  cases v with
  | nan => exact absurd rfl h
  | inf s => cases s <;> simp [flt, fle, feq]
  | fin q =>
    simp only [flt, fle, feq]
    split_ifs with h0 h1
    · simp
    · simp
    · simp only [decide_eq_true_eq, not_lt] at h0 h1
      simp only [Bool.or_eq_true, decide_eq_true_eq]
      exact ⟨lt_or_eq_of_le h0, lt_or_eq_of_le h1⟩

theorem slider_size_unfold (s : Fl_Slider) (v : Fp) :
    s.slider_size v =
      (if feq s.slider_size_ (float_of_double (clamp01 v)) = false then
        { s with slider_size_ := float_of_double (clamp01 v), damage_expose := true }
      else s) := by
  have hv : (if flt (Fp.fin 1) (if flt v (Fp.fin 0) then Fp.fin 0 else v) then Fp.fin 1
      else (if flt v (Fp.fin 0) then Fp.fin 0 else v)) = clamp01 v := by
    unfold clamp01
    have h10 : flt (Fp.fin 1) (Fp.fin 0) = false := by simp [flt]
    by_cases h : flt v (Fp.fin 0) = true
    · simp only [h, if_true, h10, Bool.false_eq_true, if_false]
    · simp only [h, Bool.false_eq_true, if_false]
  unfold Fl_Slider.slider_size
  simp only [hv]
  cases feq s.slider_size_ (float_of_double (clamp01 v)) <;> rfl

theorem slider_size_stored (s : Fl_Slider) (v : Fp) :
    (s.slider_size v).slider_size_ = float_of_double (clamp01 v) := by
  rw [slider_size_unfold]
  split_ifs with h
  · rfl
  · exact feq_eq (by simpa using h)

theorem slider_size_frame (s : Fl_Slider) (v : Fp) :
    (s.slider_size v).step = s.step ∧ (s.slider_size v).minimum = s.minimum ∧
    (s.slider_size v).maximum = s.maximum ∧ (s.slider_size v).value = s.value := by
  rw [slider_size_unfold]
  split_ifs <;> exact ⟨rfl, rfl, rfl, rfl⟩

theorem bounds_unfold (s : Fl_Slider) (a b : Fp) :
    (s.bounds a b).minimum = a ∧ (s.bounds a b).maximum = b ∧
    (s.bounds a b).slider_size_ = s.slider_size_ ∧ (s.bounds a b).step = s.step := by
  unfold Fl_Slider.bounds
  split_ifs with h
  · exact ⟨rfl, rfl, rfl, rfl⟩
  · simp only [Bool.or_eq_true, Bool.not_eq_true', not_or, Bool.not_eq_false] at h
    exact ⟨feq_eq h.1, feq_eq h.2, rfl, rfl⟩

theorem set_value_unfold (s : Fl_Slider) (v : Fp) :
    (s.set_value v).2.value = v ∧ (s.set_value v).2.minimum = s.minimum ∧
    (s.set_value v).2.maximum = s.maximum ∧
    (s.set_value v).2.slider_size_ = s.slider_size_ ∧ (s.set_value v).2.step = s.step := by
  unfold Fl_Slider.set_value
  split_ifs with h
  · exact ⟨(feq_eq h).symm, rfl, rfl, rfl, rfl⟩
  · exact ⟨rfl, rfl, rfl, rfl, rfl⟩

theorem val_linear01_from_value_eq_clamp01 (value lo hi : Fp) :
    val_linear01_from_value value lo hi =
      (if feq lo hi then Fp.fin (1/2) else clamp01 (ddiv (dsub value lo) (dsub hi lo))) := by
  unfold val_linear01_from_value clamp01
  by_cases h : feq lo hi = true
  · simp [h]
  · simp only [h, Bool.false_eq_true, if_false]
    generalize ddiv (dsub value lo) (dsub hi lo) = x
    cases x with
    | nan => simp [flt]
    | inf t => cases t <;> simp [flt]
    | fin q =>
      simp only [flt, decide_eq_true_eq]
      split_ifs <;> first | rfl | (exfalso; linarith)

/-! ### Rounding -/

theorem pow2_eq_zpow (e : ℤ) : pow2 e = (2 : ℚ) ^ e := by
  unfold pow2
  split_ifs with h
  · obtain ⟨n, rfl⟩ := Int.eq_ofNat_of_zero_le h
    simp
  · push_neg at h
    obtain ⟨n, hn⟩ := Int.eq_ofNat_of_zero_le (show 0 ≤ -e by omega)
    have he : e = -(n : ℤ) := by omega
    subst he
    simp

theorem pow2_pos (e : ℤ) : 0 < pow2 e := by
  rw [pow2_eq_zpow]
  positivity

theorem pow2_mono {a b : ℤ} (h : a ≤ b) : pow2 a ≤ pow2 b := by
  rw [pow2_eq_zpow, pow2_eq_zpow]
  exact zpow_le_zpow_right₀ (by norm_num) h

theorem qabs_eq_abs (q : ℚ) : qabs q = |q| := by
  unfold qabs
  split_ifs with h
  · rw [abs_of_neg h]
  · rw [abs_of_nonneg (not_lt.mp h)]

theorem log2_fuel_spec (fuel n : ℕ) (hf : n ≤ fuel) (hn : 1 ≤ n) :
    2 ^ log2_fuel fuel n ≤ n ∧ n < 2 ^ (log2_fuel fuel n + 1) := by
  induction fuel generalizing n with
  | zero => omega
  | succ k ih =>
    unfold log2_fuel
    split_ifs with h2
    · simp
      omega
    · have h := ih (n / 2) (by omega) (by omega)
      obtain ⟨l, u⟩ := h
      constructor
      · rw [pow_succ]
        omega
      · rw [pow_succ]
        omega

theorem nlog2_spec (n : ℕ) (hn : 1 ≤ n) : 2 ^ nlog2 n ≤ n ∧ n < 2 ^ (nlog2 n + 1) :=
  log2_fuel_spec n n le_rfl hn

theorem abs_eq_natAbs_div (q : ℚ) : |q| = (q.num.natAbs : ℚ) / (q.den : ℚ) := by
  have h : (q.num : ℚ) / (q.den : ℚ) = q := Rat.num_div_den q
  have hd : (0 : ℚ) < (q.den : ℚ) := by exact_mod_cast q.den_pos
  conv_lhs => rw [← h]
  rw [abs_div, abs_of_pos hd, Nat.cast_natAbs, Int.cast_abs]

theorem pow2_ilog2_le (q : ℚ) (hq : q ≠ 0) : pow2 (ilog2 q) ≤ |q| := by
  unfold ilog2
  simp only []
  split_ifs with h
  · rw [← qabs_eq_abs]
    exact h
  · have ha : 1 ≤ q.num.natAbs := by
      have : q.num ≠ 0 := Rat.num_ne_zero.mpr hq
      omega
    have hb : 1 ≤ q.den := q.den_pos
    obtain ⟨la, -⟩ := nlog2_spec q.num.natAbs ha
    obtain ⟨-, ub⟩ := nlog2_spec q.den hb
    have la' : ((2 : ℚ) ^ nlog2 q.num.natAbs) ≤ (q.num.natAbs : ℚ) := by exact_mod_cast la
    have ub' : (q.den : ℚ) ≤ (2 : ℚ) ^ (nlog2 q.den + 1) := by exact_mod_cast ub.le
    have hd : (0 : ℚ) < (q.den : ℚ) := by exact_mod_cast q.den_pos
    rw [abs_eq_natAbs_div, pow2_eq_zpow]
    have e : (2 : ℚ) ^ ((nlog2 q.num.natAbs : ℤ) - (nlog2 q.den : ℤ) - 1)
        = (2 : ℚ) ^ nlog2 q.num.natAbs / (2 : ℚ) ^ (nlog2 q.den + 1) := by
      rw [show ((nlog2 q.num.natAbs : ℤ) - (nlog2 q.den : ℤ) - 1)
        = (nlog2 q.num.natAbs : ℤ) - ((nlog2 q.den + 1 : ℕ) : ℤ) by push_cast; ring]
      rw [zpow_sub₀ (by norm_num), zpow_natCast, zpow_natCast]
    rw [e]
    exact div_le_div₀ (by positivity) la' hd ub'

theorem rint_ne_zero {x : ℚ} (h : 1 ≤ |x|) : rint x ≠ 0 := by
  unfold rint
  simp only []
  have hf := Int.floor_le x
  have hl := Int.lt_floor_add_one x
  intro hz
  rcases le_or_lt 0 x with h0 | h0
  · rw [abs_of_nonneg h0] at h
    have h1 : (1 : ℤ) ≤ ⌊x⌋ := Int.le_floor.mpr (by exact_mod_cast h)
    split_ifs at hz <;> omega
  · rw [abs_of_neg h0] at h
    have h1 : ⌊x⌋ ≤ (-1 : ℤ) := by
      have : x ≤ ((-1 : ℤ) : ℚ) := by push_cast; linarith
      exact Int.floor_le_iff.mpr (by push_cast; linarith)
    have hx1 : x ≤ -1 := by linarith
    split_ifs at hz with c1 c2 c3
    · omega
    · have hfl : ⌊x⌋ = -1 := by omega
      rw [hfl] at c1 c2
      push_cast at c1 c2
      linarith
    · omega
    · have hfl : ⌊x⌋ = -1 := by omega
      rw [hfl] at c1 c2
      push_cast at c1 c2
      linarith

/-- A result at least as large as the smallest subnormal `double` is not
rounded to zero. -/
theorem round64_ne_zero {q : ℚ} (h : pow2 (-1074) ≤ |q|) : binary64.round q ≠ Fp.fin 0 := by
  have hq : q ≠ 0 := by
    intro e
    rw [e, abs_zero] at h
    exact absurd h (not_le.mpr (pow2_pos _))
  unfold Format.round
  simp only [hq, if_false]
  split_ifs with hov
  · simp
  · intro hr
    have hr' : ((rint (q / pow2 (max (ilog2 q) binary64.emin - ((binary64.prec : ℤ) - 1))) : ℤ) : ℚ)
        * pow2 (max (ilog2 q) binary64.emin - ((binary64.prec : ℤ) - 1)) = 0 := by
      simpa using hr
    have hu := pow2_pos (max (ilog2 q) binary64.emin - ((binary64.prec : ℤ) - 1))
    rcases mul_eq_zero.mp hr' with h0 | h0
    · have hulp : pow2 (max (ilog2 q) binary64.emin - ((binary64.prec : ℤ) - 1)) ≤ |q| := by
        rcases le_total (ilog2 q) binary64.emin with hc | hc
        · rw [max_eq_right hc]
          exact h
        · rw [max_eq_left hc]
          refine le_trans (pow2_mono ?_) (pow2_ilog2_le q hq)
          show ilog2 q - (((53 : ℕ) : ℤ) - 1) ≤ ilog2 q
          omega
      have : 1 ≤ |q / pow2 (max (ilog2 q) binary64.emin - ((binary64.prec : ℤ) - 1))| := by
        rw [abs_div, abs_of_pos hu, le_div_iff₀ hu]
        linarith
      exact rint_ne_zero this (by exact_mod_cast h0)
    · exact absurd h0 (ne_of_gt hu)

theorem grid_sub_ge {a b : ℚ} (ha : on_grid a) (hb : on_grid b) (hne : a ≠ b) :
    pow2 (-1074) ≤ |a - b| := by
  unfold on_grid at ha hb
  have hp := pow2_pos (-1074)
  have ea : ((a / pow2 (-1074)).num : ℚ) = a / pow2 (-1074) := Rat.coe_int_num_of_den_eq_one ha
  have eb : ((b / pow2 (-1074)).num : ℚ) = b / pow2 (-1074) := Rat.coe_int_num_of_den_eq_one hb
  have hab : a - b = (((a / pow2 (-1074)).num - (b / pow2 (-1074)).num : ℤ) : ℚ) * pow2 (-1074) := by
    push_cast
    rw [ea, eb]
    field_simp
  have hnz : (a / pow2 (-1074)).num - (b / pow2 (-1074)).num ≠ 0 := by
    intro h0
    rw [h0] at hab
    simp at hab
    exact hne (sub_eq_zero.mp hab)
  have h1 : (1 : ℚ) ≤ |(((a / pow2 (-1074)).num - (b / pow2 (-1074)).num : ℤ) : ℚ)| := by
    rw [← Int.cast_abs]
    exact_mod_cast Int.one_le_abs hnz
  rw [hab, abs_mul, abs_of_pos hp]
  nlinarith

/-- The quotient `(value-min)/(max-min)` is not NaN for finite `double`s with
`min != max`, unless both differences overflow. -/
theorem quotient_ne_nan (value lo hi : ℚ) (glo : on_grid lo) (ghi : on_grid hi)
    (hne : lo ≠ hi)
    (hov : (∃ x, dsub (Fp.fin value) (Fp.fin lo) = Fp.fin x) ∨
      (∃ y, dsub (Fp.fin hi) (Fp.fin lo) = Fp.fin y)) :
    ddiv (dsub (Fp.fin value) (Fp.fin lo)) (dsub (Fp.fin hi) (Fp.fin lo)) ≠ Fp.nan := by
  have hz : dsub (Fp.fin hi) (Fp.fin lo) ≠ Fp.fin 0 :=
    round64_ne_zero (grid_sub_ge ghi glo (Ne.symm hne))
  have hn1 : dsub (Fp.fin value) (Fp.fin lo) ≠ Fp.nan := round_ne_nan _ _
  have hn2 : dsub (Fp.fin hi) (Fp.fin lo) ≠ Fp.nan := round_ne_nan _ _
  revert hz hn1 hn2 hov
  generalize dsub (Fp.fin value) (Fp.fin lo) = a
  generalize dsub (Fp.fin hi) (Fp.fin lo) = b
  intro hov hz hn1 hn2
  cases a with
  | nan => exact absurd rfl hn1
  | fin x =>
    cases b with
    | nan => exact absurd rfl hn2
    | inf t => simp [ddiv, Format.div]
    | fin y =>
      have hy : y ≠ 0 := fun e => hz (by rw [e])
      simp only [ddiv, Format.div, hy, if_false]
      exact round_ne_nan _ _
  | inf u =>
    cases b with
    | nan => exact absurd rfl hn2
    | fin y => simp [ddiv, Format.div]
    | inf t =>
      rcases hov with ⟨x, hx⟩ | ⟨y, hy⟩
      · exact absurd hx (by simp)
      · exact absurd hy (by simp)

/-- For finite `double`s the normalized value is a number in `[0,1]` unless
both `value-min` and `max-min` overflow. -/
theorem val_linear01_in_unit_of_finite (value lo hi : ℚ) (glo : on_grid lo) (ghi : on_grid hi)
    (hov : (∃ x, dsub (Fp.fin value) (Fp.fin lo) = Fp.fin x) ∨
      (∃ y, dsub (Fp.fin hi) (Fp.fin lo) = Fp.fin y)) :
    in_unit (val_linear01_from_value (Fp.fin value) (Fp.fin lo) (Fp.fin hi)) := by
  rw [val_linear01_from_value_eq_clamp01]
  by_cases h : feq (Fp.fin lo) (Fp.fin hi) = true
  · rw [if_pos h]
    decide!
  · rw [if_neg h]
    have hne : lo ≠ hi := by
      intro e
      apply h
      simp [feq, e]
    exact clamp01_in_unit (quotient_ne_nan value lo hi glo ghi hne hov)

/-! ### The `while (tryAgain)` loop -/

theorem loop_body_drag (s : Fl_Slider) (mx L hs : ℤ) (st : LoopState)
    (h : st.event = FL_DRAG) : (s.loop_body mx L hs st).tryAgain = false := by
  unfold Fl_Slider.loop_body
  simp [h]

theorem loop_body_retry (s : Fl_Slider) (mx L hs : ℤ) (st : LoopState)
    (h : (s.loop_body mx L hs st).tryAgain = true) :
    (s.loop_body mx L hs st).event = FL_DRAG := by
  unfold Fl_Slider.loop_body at h ⊢
  simp only [] at h ⊢
  split_ifs at h ⊢ with hc
  rfl

/-- Two passes are enough: the loop condition is false afterwards. -/
theorem while_tryAgain_exits (s : Fl_Slider) (mx L hs : ℤ) (st : LoopState) :
    (while_tryAgain (s.loop_body mx L hs) 2 st).tryAgain = false := by
  simp only [while_tryAgain]
  by_cases h0 : st.tryAgain = true
  · rw [if_pos h0]
    by_cases h1 : (s.loop_body mx L hs st).tryAgain = true
    · rw [if_pos h1]
      exact loop_body_drag s mx L hs _ (loop_body_retry s mx L hs st h1)
    · rw [if_neg h1]
      exact Bool.eq_false_iff.mpr h1
  · rw [if_neg h0]
    exact Bool.eq_false_iff.mpr h0

theorem while_tryAgain_done (body : LoopState → LoopState) (n : Nat) (st : LoopState)
    (h : st.tryAgain = false) : while_tryAgain body n st = st := by
  cases n with
  | zero => rfl
  | succ n => simp [while_tryAgain, h]

theorem while_tryAgain_add (body : LoopState → LoopState) (n m : Nat) (st : LoopState) :
    while_tryAgain body (n + m) st = while_tryAgain body m (while_tryAgain body n st) := by
  induction n generalizing st with
  | zero => simp [while_tryAgain]
  | succ n ih =>
    rw [Nat.succ_add]
    simp only [while_tryAgain]
    split_ifs with h
    · exact ih _
    · rw [while_tryAgain_done body m st (Bool.eq_false_iff.mpr h)]

/-- More fuel does not change the result of the loop: the model of the loop
with two passes is the loop. -/
theorem while_tryAgain_fuel (s : Fl_Slider) (mx L hs : ℤ) (st : LoopState) (n : Nat) :
    while_tryAgain (s.loop_body mx L hs) (2 + n) st
      = while_tryAgain (s.loop_body mx L hs) 2 st := by
  rw [while_tryAgain_add]
  exact while_tryAgain_done _ _ _ (while_tryAgain_exits s mx L hs st)

theorem clamp_edge_bounds (mx L hs e o : ℤ) (hfit : 0 ≤ isub L hs) :
    0 ≤ (clamp_edge mx L hs e o).1 ∧ (clamp_edge mx L hs e o).1 ≤ isub L hs := by
  unfold clamp_edge
  split_ifs <;> simp only [] <;> omega

theorem clamp_edge_fixed (mx L hs e o : ℤ) (h0 : 0 ≤ e) (h1 : e ≤ isub L hs) :
    clamp_edge mx L hs e o = (e, o) := by
  unfold clamp_edge
  rw [if_neg (by omega), if_neg (by omega)]

theorem clamp_edge_far_end (mx L hs e o : ℤ) (hfit : 0 ≤ isub L hs)
    (hfar : isub L hs ≤ e) : (clamp_edge mx L hs e o).1 = isub L hs := by
  unfold clamp_edge
  split_ifs <;> simp only [] <;> omega

theorem loop_body_edge (s : Fl_Slider) (mx L hs : ℤ) (st : LoopState) :
    (s.loop_body mx L hs st).handle_start_edge_px =
      (clamp_edge mx L hs st.handle_start_edge_px st.offcenter).1 := by
  unfold Fl_Slider.loop_body
  simp only []
  split_ifs <;> rfl

theorem loop_body_v (s : Fl_Slider) (mx L hs : ℤ) (st : LoopState) :
    (s.loop_body mx L hs st).v =
      s.pixel_to_value (s.loop_body mx L hs st).handle_start_edge_px L hs := by
  unfold Fl_Slider.loop_body
  simp only []
  split_ifs <;> rfl

/-- The handle edge after one pass lies on the track when the handle fits. -/
theorem loop_body_edge_bounds (s : Fl_Slider) (mx L hs : ℤ) (st : LoopState)
    (hfit : 0 ≤ isub L hs) :
    0 ≤ (s.loop_body mx L hs st).handle_start_edge_px ∧
    (s.loop_body mx L hs st).handle_start_edge_px ≤ isub L hs := by
  rw [loop_body_edge]
  exact clamp_edge_bounds mx L hs _ _ hfit

/-- A pass that starts with the edge on the track keeps the edge. -/
theorem loop_body_edge_fixed (s : Fl_Slider) (mx L hs : ℤ) (st : LoopState)
    (h0 : 0 ≤ st.handle_start_edge_px) (h1 : st.handle_start_edge_px ≤ isub L hs) :
    (s.loop_body mx L hs st).handle_start_edge_px = st.handle_start_edge_px := by
  rw [loop_body_edge, clamp_edge_fixed mx L hs _ _ h0 h1]

/-- The retry of the loop (taken when a press computes the current value)
recomputes the value from the same handle edge: when the handle fits on the
track, the edge and the value on exit of the loop are those of the first
pass. -/
theorem run_loop_eq_first_pass (s : Fl_Slider) (event : Event) (L mx hs : ℤ)
    (hfit : 0 ≤ isub L hs) :
    (s.run_loop event L mx hs).handle_start_edge_px =
      (s.loop_body mx L hs (loop_entry s event mx)).handle_start_edge_px ∧
    (s.run_loop event L mx hs).v = (s.loop_body mx L hs (loop_entry s event mx)).v := by
  unfold Fl_Slider.run_loop
  simp only [while_tryAgain]
  rw [if_pos (by rfl)]
  obtain ⟨b0, b1⟩ := loop_body_edge_bounds s mx L hs (loop_entry s event mx) hfit
  have e := loop_body_edge_fixed s mx L hs _ b0 b1
  split_ifs with h1
  · refine ⟨e, ?_⟩
    rw [loop_body_v, e, ← loop_body_v]
  · exact ⟨rfl, rfl⟩

/-- When the handle fits on the track, the handle edge used for the value lies
in `[0, L - hs]`, and a pointer at or past the track end with a stored offset
of at most `hs` (no overflow in `mx - offcenter`) puts the edge at
`L - hs`. -/
theorem run_loop_edge_bounds (s : Fl_Slider) (event : Event) (L mx hs : ℤ)
    (hfit : 0 ≤ L - hs) (hD : is_int (L - hs)) :
    0 ≤ (s.run_loop event L mx hs).handle_start_edge_px ∧
    (s.run_loop event L mx hs).handle_start_edge_px ≤ L - hs ∧
    (L ≤ mx → s.offcenter ≤ hs → is_int (mx - s.offcenter) →
      (s.run_loop event L mx hs).handle_start_edge_px = L - hs) := by
  have hsub : isub L hs = L - hs := wrap32_of_is_int hD
  have hfit' : 0 ≤ isub L hs := by rw [hsub]; exact hfit
  rw [(run_loop_eq_first_pass s event L mx hs hfit').1]
  obtain ⟨b0, b1⟩ := loop_body_edge_bounds s mx L hs (loop_entry s event mx) hfit'
  refine ⟨b0, hsub ▸ b1, ?_⟩
  intro hmx ho1 hi
  rw [loop_body_edge, ← hsub]
  refine clamp_edge_far_end mx L hs _ _ hfit' ?_
  show isub L hs ≤ isub mx s.offcenter
  rw [hsub, show isub mx s.offcenter = mx - s.offcenter from wrap32_of_is_int hi]
  omega

/-- A press whose first pass computes the current value retries, and the retry
hands back the same value: the re-centred offset is never used to recompute
the handle edge. -/
theorem run_loop_push_retry (s : Fl_Slider) (L mx hs : ℤ) (hfit : 0 ≤ isub L hs)
    (h : feq (s.loop_body mx L hs (loop_entry s FL_PUSH mx)).v s.value = true) :
    (s.run_loop FL_PUSH L mx hs).v = s.value := by
  rw [(run_loop_eq_first_pass s FL_PUSH L mx hs hfit).2]
  exact feq_eq h

/-- For a normal or nice slider the conversion is reached only past the early
return on the unfloored handle length, and its divisor is the track length
minus the floored handle length: short of overflow it is positive exactly
when the minimum handle size is also shorter than the track. -/
theorem drag_prologue_divisor (s : Fl_Slider) (env : Env) (event : Event) (X Y W H d : ℤ)
    (hf : s.is_fill = false)
    (h : (s.drag_prologue env event X Y W H).divisor = some d) :
    d = isub (s.track_length W H) (s.handle_px W H) ∧
    s.unfloored_handle_px W H < s.track_length W H ∧
    (is_int (s.track_length W H - s.handle_px W H) →
      (0 < d ↔ s.handle_size_min W H < s.track_length W H)) := by
  have hT : (if s.is_nice = true then iadd (iadd (half (if s.horizontal = true then H else W)) 1) 4
      else iadd (half (if s.horizontal = true then H else W)) 1) = s.handle_size_min W H := rfl
  have hL : (if s.horizontal = true then W else H) = s.track_length W H := rfl
  have hu : int_of_double (dadd (binary32.mul s.slider_size_
      (float_of_int (s.track_length W H))) (Fp.fin (1/2))) = s.unfloored_handle_px W H := rfl
  have hhs : (if s.unfloored_handle_px W H < s.handle_size_min W H then s.handle_size_min W H
      else s.unfloored_handle_px W H) = s.handle_px W H := by
    unfold Fl_Slider.handle_px
    rw [max_def]
    split_ifs <;> omega
  unfold Fl_Slider.drag_prologue at h
  simp only [hf, Bool.false_eq_true, if_false, hL, hT] at h
  simp only [hu, hhs] at h
  have hmax : s.handle_px W H = max (s.unfloored_handle_px W H) (s.handle_size_min W H) := rfl
  split_ifs at h <;> simp only [Prologue.divisor, Option.some.injEq] at h <;>
    first
    | exact absurd h (by simp)
    | (subst h
       refine ⟨rfl, by omega, ?_⟩
       intro hi
       rw [show isub (s.track_length W H) (s.handle_px W H)
         = s.track_length W H - s.handle_px W H from wrap32_of_is_int hi, hmax, max_def]
       split_ifs <;> omega)

/-! ### Handle geometry of `draw` -/

theorem draw_nonfill_size (s : Fl_Slider) (X Y W H : ℤ) (hfill : s.is_fill = false) :
    (s.draw X Y W H).handle_size_px =
      max (px_of_float s.slider_size_ (s.track_length W H)) (s.handle_size_min W H) := by
  unfold Fl_Slider.draw Fl_Slider.track_length Fl_Slider.handle_size_min
    Fl_Slider.cross_dimension px_of_float
  simp only [hfill]
  cases s.horizontal <;> cases s.is_nice <;> simp [max_def] <;> split_ifs <;> omega

theorem draw_nonfill_edge (s : Fl_Slider) (X Y W H : ℤ) (hfill : s.is_fill = false) :
    (s.draw X Y W H).handle_start_edge_px =
      px_of_double s.val_linear01
        (isub (s.track_length W H) (s.draw X Y W H).handle_size_px) := by
  unfold Fl_Slider.draw Fl_Slider.track_length Fl_Slider.val_linear01 px_of_double
  simp only [hfill, Bool.false_eq_true, if_false]
  cases s.horizontal <;> rfl

/-- The scenario "track length 100, range `[0,100]`, value 50, slider size 0.2"
on a normal slider gives handle length 20 and handle edge 40 for every cross
dimension `C <= 38`, horizontal or vertical. -/
theorem draw_scenario_normal (C : ℤ) (hC : C ≤ 38) (hi : is_int C) :
    ((sample FL_HOR_SLIDER 0 100 50 0 (1/5)).draw 0 0 100 C).handle_size_px = 20 ∧
    ((sample FL_HOR_SLIDER 0 100 50 0 (1/5)).draw 0 0 100 C).handle_start_edge_px = 40 ∧
    ((sample FL_VERT_SLIDER 0 100 50 0 (1/5)).draw 0 0 C 100).handle_size_px = 20 ∧
    ((sample FL_VERT_SLIDER 0 100 50 0 (1/5)).draw 0 0 C 100).handle_start_edge_px = 40 := by
  have hh : half C + 1 ≤ 20 := by
    have := half_le_of_le C 19 (by norm_num) (by omega)
    omega
  have hb := half_bounds hi
  have hT1 : (sample FL_HOR_SLIDER 0 100 50 0 (1/5)).handle_size_min 100 C = half C + 1 := by
    rw [handle_size_min_eq _ _ _ (by decide) hi]
    show half C + 1 + 0 = half C + 1
    omega
  have hT2 : (sample FL_VERT_SLIDER 0 100 50 0 (1/5)).handle_size_min C 100 = half C + 1 := by
    rw [handle_size_min_eq _ _ _ hi (by decide)]
    show half C + 1 + 0 = half C + 1
    omega
  have u : px_of_float (sample FL_HOR_SLIDER 0 100 50 0 (1/5)).slider_size_ 100 = 20 := by
    decide!
  have e : px_of_double (sample FL_HOR_SLIDER 0 100 50 0 (1/5)).val_linear01 (isub 100 20)
      = 40 := by decide!
  have h1 : ((sample FL_HOR_SLIDER 0 100 50 0 (1/5)).draw 0 0 100 C).handle_size_px = 20 := by
    rw [draw_nonfill_size _ _ _ _ _ (by decide), hT1]
    show max (px_of_float (sample FL_HOR_SLIDER 0 100 50 0 (1/5)).slider_size_ 100)
      (half C + 1) = 20
    rw [u]
    omega
  have h2 : ((sample FL_VERT_SLIDER 0 100 50 0 (1/5)).draw 0 0 C 100).handle_size_px = 20 := by
    rw [draw_nonfill_size _ _ _ _ _ (by decide), hT2]
    show max (px_of_float (sample FL_HOR_SLIDER 0 100 50 0 (1/5)).slider_size_ 100)
      (half C + 1) = 20
    rw [u]
    omega
  refine ⟨h1, ?_, h2, ?_⟩
  · rw [draw_nonfill_edge _ _ _ _ _ (by decide), h1]
    exact e
  · rw [draw_nonfill_edge _ _ _ _ _ (by decide), h2]
    exact e

/-! ## Claims -/

/-- C8 (as stated, refuted): `slider_size(0.1)` stores `float(0.1)`, which is
`13421773/134217728` and not `clamp(0.1, 0, 1) = 0.1`. -/
theorem slider_size_narrowing_counterexample :
    ¬ ((sample FL_VERT_SLIDER 0 1 0 0 0).slider_size (dbl (1/10))).slider_size_
      = clamp01 (dbl (1/10)) := by
  decide!

/-- C8 (amended): after `slider_size(v)` the stored slider size is
`float(clamp(v, 0, 1))`, the clamp of `v` (0 when `v < 0`, 1 when `v > 1`, `v`
otherwise) narrowed to single precision; the redraw flag `FL_DAMAGE_EXPOSE`
is raised by the call exactly when `float(clamp(v, 0, 1))` compares unequal
to the size stored before, which for `v` not NaN is exactly when the stored
size changed; nothing else in the slider changes. -/
theorem slider_size_spec (s : Fl_Slider) (v : Fp) :
    (s.slider_size v).slider_size_ = float_of_double (clamp01 v) ∧
    (s.slider_size v).damage_expose =
      (s.damage_expose || !feq s.slider_size_ (float_of_double (clamp01 v))) ∧
    (v = Fp.nan ∨ (s.slider_size v).damage_expose =
      (s.damage_expose || decide ((s.slider_size v).slider_size_ ≠ s.slider_size_))) ∧
    s.slider_size v =
      { s with slider_size_ := (s.slider_size v).slider_size_,
               damage_expose := (s.slider_size v).damage_expose } := by
  have h1 := slider_size_stored s v
  have h2 : (s.slider_size v).damage_expose =
      (s.damage_expose || !feq s.slider_size_ (float_of_double (clamp01 v))) := by
    rw [slider_size_unfold]
    cases h : feq s.slider_size_ (float_of_double (clamp01 v)) <;> simp
  refine ⟨h1, h2, ?_, ?_⟩
  · by_cases hv : v = Fp.nan
    · exact Or.inl hv
    · right
      rw [h2, h1]
      have hn : float_of_double (clamp01 v) ≠ Fp.nan :=
        float_of_double_ne_nan (clamp01_ne_nan hv)
      cases h : feq s.slider_size_ (float_of_double (clamp01 v))
      · have := (feq_false_iff_ne hn).mp h
        simp [this.symm]
      · have := feq_eq h
        simp [this]
  · rw [slider_size_unfold]
    split_ifs <;> rfl

/-- C3 (as stated, refuted): with `pos = 5`, `size = 10`, `first = 0`,
`total = 10` the window runs past the end, `total` is expanded to 15, and the
stored slider size is `float(10.0/15.0)`, not `1.0`, although
`size >= total`. -/
theorem scrollvalue_size_ge_total_counterexample :
    ¬ ((10 : ℤ) ≤ 10 →
      ((sample FL_VERT_SLIDER 0 1 0 0 0).scrollvalue 5 10 0 10).2.slider_size_ = Fp.fin 1) := by
  decide!

/-- C3 (amended): after `scrollvalue(pos, size, first, total)`, with
`total' = pos+size-first` if `pos+size > first+total` and `total' = total`
otherwise (sums and differences in 32-bit `int` arithmetic), the stored
slider size is `1.0` whenever `size >= total'` and otherwise the `double`
quotient `size/total'` clamped into `[0,1]` and narrowed to `float`; the step
is 1, the bounds are `[first, total' - size + first]` and the value is
`pos`. -/
theorem scrollvalue_spec (s : Fl_Slider) (pos size first total : ℤ) :
    (s.scrollvalue pos size first total).2.slider_size_ =
      (if expanded_total pos size first total ≤ size then Fp.fin 1
       else float_of_double (clamp01
        (ddiv (double_of_int size) (double_of_int (expanded_total pos size first total))))) ∧
    (s.scrollvalue pos size first total).2.step = Fp.fin 1 ∧
    (s.scrollvalue pos size first total).2.minimum = double_of_int first ∧
    (s.scrollvalue pos size first total).2.maximum =
      double_of_int (iadd (isub (expanded_total pos size first total) size) first) ∧
    (s.scrollvalue pos size first total).2.value = double_of_int pos := by
  unfold Fl_Slider.scrollvalue
  simp only []
  rw [show (if iadd first total < iadd pos size then isub (iadd pos size) first else total)
    = expanded_total pos size first total from rfl]
  generalize expanded_total pos size first total = t
  obtain ⟨hv, hmin, hmax, hsz, hst⟩ := set_value_unfold
    (((s.set_step (Fp.fin 1) 1).slider_size
      (if t ≤ size then Fp.fin 1 else ddiv (double_of_int size) (double_of_int t))).bounds
      (double_of_int first) (double_of_int (iadd (isub t size) first))) (double_of_int pos)
  obtain ⟨bmin, bmax, bsz, bst⟩ := bounds_unfold
    ((s.set_step (Fp.fin 1) 1).slider_size
      (if t ≤ size then Fp.fin 1 else ddiv (double_of_int size) (double_of_int t)))
    (double_of_int first) (double_of_int (iadd (isub t size) first))
  refine ⟨?_, ?_, ?_, ?_, hv⟩
  · rw [hsz, bsz, slider_size_stored]
    split_ifs
    · decide!
    · rfl
  · rw [hst, bst, (slider_size_frame _ _).1]
    show ddiv (Fp.fin 1) (double_of_int 1) = Fp.fin 1
    decide!
  · rw [hmin, bmin]
  · rw [hmax, bmax]

/-- C5 (as stated, refuted): a fill slider over the inverted range `[10, 0]` at
value 7 on a track of 100 pixels has `n = 0.3` and `int(n*L + 0.5) = 30`, but
`draw` computes the handle length 70. -/
theorem draw_fill_length_counterexample :
    ¬ ((sample FL_HOR_FILL_SLIDER 10 0 7 0 0).draw 0 0 100 20).handle_size_px =
      px_of_double (sample FL_HOR_FILL_SLIDER 10 0 7 0 0).val_linear01 100 := by
  decide!

/-- C5 (amended): for a fill slider drawn on a track of length `L`, with
`k = int(n*L + 0.5)` evaluated in `double` arithmetic: unless
`minimum > maximum` the handle has length `k` and starts at offset 0; when
`minimum > maximum` the handle has length `L - k`, starts at offset
`L - (L - k)` and ends at the far edge (`offset + length = L`), all in `int`
arithmetic. -/
theorem draw_fill_geometry (s : Fl_Slider) (X Y W H : ℤ) (hfill : s.is_fill = true)
    (hL : is_int (s.track_length W H)) :
    (s.draw X Y W H).handle_size_px =
      (if flt s.maximum s.minimum then isub (s.track_length W H) (s.fill_px W H)
       else s.fill_px W H) ∧
    (s.draw X Y W H).handle_start_edge_px =
      (if flt s.maximum s.minimum then
        isub (s.track_length W H) (isub (s.track_length W H) (s.fill_px W H))
       else 0) ∧
    (if flt s.maximum s.minimum then
      iadd (s.draw X Y W H).handle_start_edge_px (s.draw X Y W H).handle_size_px
        = s.track_length W H
     else (s.draw X Y W H).handle_start_edge_px = 0) := by
  have hsz : (s.draw X Y W H).handle_size_px =
      (if flt s.maximum s.minimum then isub (s.track_length W H) (s.fill_px W H)
       else s.fill_px W H) := by
    unfold Fl_Slider.draw Fl_Slider.fill_px Fl_Slider.track_length Fl_Slider.val_linear01
      px_of_double
    simp only [hfill, if_true]
    cases s.horizontal <;> split_ifs <;> rfl
  have hst : (s.draw X Y W H).handle_start_edge_px =
      (if flt s.maximum s.minimum then
        isub (s.track_length W H) (isub (s.track_length W H) (s.fill_px W H))
       else 0) := by
    unfold Fl_Slider.draw Fl_Slider.fill_px Fl_Slider.track_length Fl_Slider.val_linear01
      px_of_double
    simp only [hfill, if_true]
    cases s.horizontal <;> split_ifs <;> rfl
  refine ⟨hsz, hst, ?_⟩
  rw [hsz, hst]
  split_ifs
  · rw [iadd_isub_cancel, wrap32_of_is_int hL]
  · rfl

/-- C5 (witness): fill slider, range `[0,10]`, value 7, track length 100:
filled length 70 starting at offset 0; over the inverted range `[10,0]`:
length 70 starting at offset 30. -/
theorem draw_fill_geometry_witness :
    (sample FL_HOR_FILL_SLIDER 0 10 7 0 0).is_fill = true ∧
    is_int ((sample FL_HOR_FILL_SLIDER 0 10 7 0 0).track_length 100 20) ∧
    ((sample FL_HOR_FILL_SLIDER 0 10 7 0 0).draw 0 0 100 20).handle_size_px = 70 ∧
    ((sample FL_HOR_FILL_SLIDER 0 10 7 0 0).draw 0 0 100 20).handle_start_edge_px = 0 ∧
    ((sample FL_HOR_FILL_SLIDER 10 0 7 0 0).draw 0 0 100 20).handle_size_px = 70 ∧
    ((sample FL_HOR_FILL_SLIDER 10 0 7 0 0).draw 0 0 100 20).handle_start_edge_px = 30 := by
  have h := draw_fill_geometry (sample FL_HOR_FILL_SLIDER 0 10 7 0 0) 0 0 100 20
    (by decide) (by decide)
  have h' := draw_fill_geometry (sample FL_HOR_FILL_SLIDER 10 0 7 0 0) 0 0 100 20
    (by decide) (by decide)
  refine ⟨by decide, by decide, ?_, ?_, ?_, ?_⟩
  · rw [h.1]; decide!
  · rw [h.2.1]; decide!
  · rw [h'.1]; decide!
  · rw [h'.2.1]; decide!

/-- C7: on an arrow-key `FL_KEYBOARD` event, with no deletion reported during
the callbacks, `handle` returns 0 and issues no call when the arrow is
perpendicular to the slider (Up/Down on horizontal, Left/Right on vertical);
otherwise it returns 1 and issues exactly push, then drag with
`clamp(increment(value, -1))` for Up/Left or `clamp(increment(value, +1))` for
Down/Right, then release, in that order. -/
theorem handle_keyboard_spec (s : Fl_Slider) (env : Env) (X Y W H : ℤ)
    (hkey : env.event_key ≠ FL_OtherKey)
    (hpush : env.deleted_after_push = false) (hdrag : env.deleted_after_drag = false) :
    s.handle env FL_KEYBOARD X Y W H =
      (if s.perpendicular env.event_key then (0, s)
       else (1,
        { s with
          value := s.clamp (s.increment s.value env.event_key.direction),
          calls := s.calls ++
            [Callback.push,
             Callback.drag (s.clamp (s.increment s.value env.event_key.direction)),
             Callback.release] })) := by
  unfold Fl_Slider.handle Fl_Slider.perpendicular Key.direction Fl_Slider.key_move
  simp only [hpush, hdrag]
  cases hk : env.event_key with
  | FL_OtherKey => exact absurd hk hkey
  | _ =>
    cases hh : s.horizontal <;>
      simp [Fl_Slider.handle_push, Fl_Slider.handle_drag, Fl_Slider.handle_release,
        Fl_Slider.clamp, Fl_Slider.increment]

/-- C7 (witness): a vertical slider at value 5 of `[0,10]`, step 1, on the Up
arrow: returns 1, value 4, calls push, drag 4, release; the same key on a
horizontal slider is ignored. -/
theorem handle_keyboard_spec_witness :
    (env_at 0 0 FL_Up).event_key ≠ FL_OtherKey ∧
    (env_at 0 0 FL_Up).deleted_after_push = false ∧
    (env_at 0 0 FL_Up).deleted_after_drag = false ∧
    (sample FL_VERT_SLIDER 0 10 5 1 0).handle (env_at 0 0 FL_Up) FL_KEYBOARD 0 0 20 100 =
      (1, { sample FL_VERT_SLIDER 0 10 5 1 0 with
        value := Fp.fin 4,
        calls := [Callback.push, Callback.drag (Fp.fin 4), Callback.release] }) ∧
    (sample FL_HOR_SLIDER 0 10 5 1 0).handle (env_at 0 0 FL_Up) FL_KEYBOARD 0 0 100 20 =
      (0, sample FL_HOR_SLIDER 0 10 5 1 0) := by
  refine ⟨by decide, rfl, rfl, ?_, ?_⟩
  · rw [handle_keyboard_spec _ _ _ _ _ _ (by decide) rfl rfl]
    decide!
  · rw [handle_keyboard_spec _ _ _ _ _ _ (by decide) rfl rfl]
    decide!

/-- C9 (as stated, refuted): horizontal slider, 100 by 20 pixels, range
`[0,10]`, value 5, slider size 0.2, pressed at pixel 51, on the handle
(offset 11).  When the widget tracker reports the widget deleted after the
push notification (line 233), `handle` returns 1 without storing the offset:
`offcenter` keeps its old value 0. -/
theorem handle_push_deleted_counterexample :
    ¬ (event_inside { env_at 51 5 FL_OtherKey with deleted_after_push := true } 0 0 100 20 = true →
       (sample FL_HOR_SLIDER 0 10 5 1 (1/5)).pointer_on_handle
         { env_at 51 5 FL_OtherKey with deleted_after_push := true } 0 0 100 20 →
       (sample FL_HOR_SLIDER 0 10 5 1 (1/5)).handle
          { env_at 51 5 FL_OtherKey with deleted_after_push := true } FL_PUSH 0 0 100 20
        = (1, { sample FL_HOR_SLIDER 0 10 5 1 (1/5) with
            offcenter := (sample FL_HOR_SLIDER 0 10 5 1 (1/5)).press_offset
              { env_at 51 5 FL_OtherKey with deleted_after_push := true } 0 0 100 20,
            calls := [Callback.push] })) := by
  decide!

/-- C9 (amended): a press inside the bounds with the pointer on the handle (for
a normal or nice slider: unfloored handle shorter than the track and offset
from the leading edge `int(n*(L-handle_length)+0.5)` within
`[0, handle_length]`; for a fill slider: offset from `int(n*L+0.5)` within
`[-10, 10]`; the edges evaluated in `double` arithmetic as in the source),
the widget not being deleted during the push notification: `handle` notifies
push, stores the offset as the drag offset, returns 1 and makes no drag call,
so the value is unchanged. -/
theorem handle_push_on_handle (s : Fl_Slider) (env : Env) (X Y W H : ℤ)
    (hinside : event_inside env X Y W H = true)
    (halive : env.deleted_after_push = false)
    (hon : s.pointer_on_handle env X Y W H) :
    s.handle env FL_PUSH X Y W H =
      (1, { s with offcenter := s.press_offset env X Y W H,
                   calls := s.calls ++ [Callback.push] }) := by
  unfold Fl_Slider.pointer_on_handle at hon
  unfold Fl_Slider.handle Fl_Slider.drag_case Fl_Slider.drag_prologue
  simp only [hinside, halive, Bool.not_true, Bool.false_eq_true, if_false]
  have hfill : s.handle_push.is_fill = s.is_fill := rfl
  have hhor : s.handle_push.horizontal = s.horizontal := rfl
  have hnice : s.handle_push.is_nice = s.is_nice := rfl
  rw [hfill, hhor, hnice]
  by_cases hf : s.is_fill = true
  · rw [if_pos hf] at hon
    have hoff : s.press_offset env X Y W H =
        isub (if s.horizontal then isub env.event_x X else isub env.event_y Y)
          (int_of_double (dadd (dmul (val_linear01_from_value s.handle_push.value
            s.handle_push.minimum s.handle_push.maximum)
            (double_of_int (if s.horizontal then W else H))) (Fp.fin (1/2)))) := by
      unfold Fl_Slider.press_offset Fl_Slider.handle_edge_px Fl_Slider.pointer_px
        Fl_Slider.fill_px Fl_Slider.val_linear01 Fl_Slider.track_length px_of_double
      rw [if_pos hf]
      rfl
    rw [hoff] at hon
    simp only [hf, if_true]
    rw [if_neg (by omega)]
    rw [hoff]
    rfl
  · rw [if_neg hf] at hon
    obtain ⟨hlen, h0, h1⟩ := hon
    have hT : (if s.is_nice = true then iadd (iadd (half (if s.horizontal = true then H else W)) 1) 4
        else iadd (half (if s.horizontal = true then H else W)) 1) = s.handle_size_min W H := rfl
    have hu : int_of_double (dadd (binary32.mul s.handle_push.slider_size_
        (float_of_int (s.track_length W H))) (Fp.fin (1/2))) = s.unfloored_handle_px W H := rfl
    have hL : (if s.horizontal = true then W else H) = s.track_length W H := rfl
    have hmx : (if s.horizontal = true then isub env.event_x X else isub env.event_y Y)
        = s.pointer_px env X Y := rfl
    have hhs : (if s.unfloored_handle_px W H < s.handle_size_min W H then s.handle_size_min W H
        else s.unfloored_handle_px W H) = s.handle_px W H := by
      unfold Fl_Slider.handle_px
      rw [max_def]
      split_ifs <;> omega
    have hoff : s.press_offset env X Y W H = isub (s.pointer_px env X Y)
        (int_of_double (dadd (dmul (val_linear01_from_value s.handle_push.value
          s.handle_push.minimum s.handle_push.maximum)
          (double_of_int (isub (s.track_length W H) (s.handle_px W H)))) (Fp.fin (1/2)))) := by
      unfold Fl_Slider.press_offset Fl_Slider.handle_edge_px
      rw [if_neg hf]
      rfl
    simp only [hf, Bool.false_eq_true, if_false, if_true, hT, hL, hmx]
    simp only [hu, hhs]
    rw [← hoff]
    rw [if_neg (by omega), if_neg (by omega), if_neg (by omega)]
    rfl

/-- C9 (witness): horizontal slider, 100 by 20 pixels, range `[0,10]`, value 5,
slider size 0.2 (handle at pixels 40..60): a press at pixel 51 is on the
handle, offset 11; and a fill slider at value 7 pressed at pixel 75, offset
5. -/
theorem handle_push_on_handle_witness :
    (event_inside (env_at 51 5 FL_OtherKey) 0 0 100 20 = true ∧
      (env_at 51 5 FL_OtherKey).deleted_after_push = false ∧
      (sample FL_HOR_SLIDER 0 10 5 1 (1/5)).pointer_on_handle (env_at 51 5 FL_OtherKey)
        0 0 100 20 ∧
      (sample FL_HOR_SLIDER 0 10 5 1 (1/5)).handle (env_at 51 5 FL_OtherKey) FL_PUSH 0 0 100 20
        = (1, { sample FL_HOR_SLIDER 0 10 5 1 (1/5) with
            offcenter := 11, calls := [Callback.push] })) ∧
    (event_inside (env_at 75 5 FL_OtherKey) 0 0 100 20 = true ∧
      (sample FL_HOR_FILL_SLIDER 0 10 7 1 0).pointer_on_handle (env_at 75 5 FL_OtherKey)
        0 0 100 20 ∧
      (sample FL_HOR_FILL_SLIDER 0 10 7 1 0).handle (env_at 75 5 FL_OtherKey) FL_PUSH
        0 0 100 20
        = (1, { sample FL_HOR_FILL_SLIDER 0 10 7 1 0 with
            offcenter := 5, calls := [Callback.push] })) := by
  refine ⟨⟨by decide, rfl, by decide!, ?_⟩, ⟨by decide, by decide!, ?_⟩⟩
  · rw [handle_push_on_handle _ _ _ _ _ _ (by decide) rfl (by decide!)]
    decide!
  · rw [handle_push_on_handle _ _ _ _ _ _ (by decide) rfl (by decide!)]
    decide!

/-- C1 (code at the failing input): horizontal slider of 100 by 20 pixels, range
`[0,10]`, step 1, value 5, slider size 0.2, so the handle covers pixels 40..60.
A press at pixel 61 is inside the bounds and outside the grab zone (offset 21
is larger than the handle length 20); the first pass computes `v = 5`, the
current value, the loop retries with the offset re-centred to 10, and the
value handed to the drag callback is again 5: the slider does not move. -/
theorem handle_push_retry_same_value :
    event_inside (env_at 61 5 FL_OtherKey) 0 0 100 20 = true ∧
    (sample FL_HOR_SLIDER 0 10 5 1 (1/5)).is_fill = false ∧
    (sample FL_HOR_SLIDER 0 10 5 1 (1/5)).minimum ≠ (sample FL_HOR_SLIDER 0 10 5 1 (1/5)).maximum ∧
    (sample FL_HOR_SLIDER 0 10 5 1 (1/5)).handle_px 100 20 = 20 ∧
    (sample FL_HOR_SLIDER 0 10 5 1 (1/5)).track_length 100 20 = 100 ∧
    (sample FL_HOR_SLIDER 0 10 5 1 (1/5)).press_offset (env_at 61 5 FL_OtherKey) 0 0 100 20 = 21 ∧
    (sample FL_HOR_SLIDER 0 10 5 1 (1/5)).handle_push.drag_prologue
        (env_at 61 5 FL_OtherKey) FL_PUSH 0 0 100 20
      = Prologue.go (after_push (sample FL_HOR_SLIDER 0 10 5 1 (1/5)) 20) 100 61 20 ∧
    ((after_push (sample FL_HOR_SLIDER 0 10 5 1 (1/5)) 20).loop_body 61 100 20
      (loop_entry (after_push (sample FL_HOR_SLIDER 0 10 5 1 (1/5)) 20) FL_PUSH 61))
      = { event := FL_DRAG, handle_start_edge_px := 41, offcenter := 10, v := Fp.fin 5,
          tryAgain := true } ∧
    ((after_push (sample FL_HOR_SLIDER 0 10 5 1 (1/5)) 20).run_loop FL_PUSH 100 61 20)
      = { event := FL_DRAG, handle_start_edge_px := 41, offcenter := 10, v := Fp.fin 5,
          tryAgain := false } ∧
    (sample FL_HOR_SLIDER 0 10 5 1 (1/5)).handle (env_at 61 5 FL_OtherKey) FL_PUSH 0 0 100 20
      = (1, { sample FL_HOR_SLIDER 0 10 5 1 (1/5) with
          value := Fp.fin 5, offcenter := 10,
          calls := [Callback.push, Callback.drag (Fp.fin 5)] }) := by
  decide!

/-- C2 (code at the failing input): horizontal slider of 10 by 40 pixels, slider
size 0.1: the unfloored handle length 1 passes the early return, the minimum
size raises it to 21, longer than the track.  After a press at pixel 0 that
grabs the handle (offset 5), a drag to pixel 10 (the track end) reaches the
conversion with the handle edge `-11`, a negative edge. -/
theorem drag_edge_negative_on_short_track :
    (sample FL_HOR_SLIDER 0 10 5 1 (1/10)).handle (env_at 0 5 FL_OtherKey) FL_PUSH 0 0 10 40
      = (1, after_push (sample FL_HOR_SLIDER 0 10 5 1 (1/10)) 5) ∧
    (after_push (sample FL_HOR_SLIDER 0 10 5 1 (1/10)) 5).drag_prologue
        (env_at 10 5 FL_OtherKey) FL_DRAG 0 0 10 40
      = Prologue.go (after_push (sample FL_HOR_SLIDER 0 10 5 1 (1/10)) 5) 10 10 21 ∧
    ((after_push (sample FL_HOR_SLIDER 0 10 5 1 (1/10)) 5).run_loop FL_DRAG 10 10 21)
      = { event := FL_DRAG, handle_start_edge_px := -11, offcenter := 21, v := Fp.fin 10,
          tryAgain := false } ∧
    ¬ (0 ≤ ((after_push (sample FL_HOR_SLIDER 0 10 5 1 (1/10)) 5).run_loop FL_DRAG 10 10
      21).handle_start_edge_px) := by
  decide!

/-- C10 (code at the failing input): horizontal slider of 21 by 40 pixels,
slider size 0.1: the unfloored handle length 2 passes the early return
`handle_size_px >= length_px`, the minimum size then raises it to 21, the
track length.  After a press at pixel 0 that grabs the handle, a drag to
pixel 5 reaches the conversion with divisor `length_px - handle_size_px = 0`;
the quotient `0.0/0` is NaN, and NaN is handed to the drag callback and
stored as the value. -/
theorem drag_divisor_zero_on_short_track :
    (sample FL_HOR_SLIDER 0 10 5 1 (1/10)).unfloored_handle_px 21 40 = 2 ∧
    (sample FL_HOR_SLIDER 0 10 5 1 (1/10)).handle (env_at 0 5 FL_OtherKey) FL_PUSH 0 0 21 40
      = (1, after_push (sample FL_HOR_SLIDER 0 10 5 1 (1/10)) 0) ∧
    (after_push (sample FL_HOR_SLIDER 0 10 5 1 (1/10)) 0).drag_prologue
        (env_at 5 5 FL_OtherKey) FL_DRAG 0 0 21 40
      = Prologue.go (after_push (sample FL_HOR_SLIDER 0 10 5 1 (1/10)) 0) 21 5 21 ∧
    ((after_push (sample FL_HOR_SLIDER 0 10 5 1 (1/10)) 0).drag_prologue
        (env_at 5 5 FL_OtherKey) FL_DRAG 0 0 21 40).divisor = some 0 ∧
    (after_push (sample FL_HOR_SLIDER 0 10 5 1 (1/10)) 0).handle
        (env_at 5 5 FL_OtherKey) FL_DRAG 0 0 21 40
      = (1, { after_push (sample FL_HOR_SLIDER 0 10 5 1 (1/10)) 0 with
          value := Fp.nan, offcenter := 5,
          calls := [Callback.push, Callback.drag Fp.nan] }) := by
  decide!

end FlSlider
